import Mathlib

/-!
Shallow embedding of `src/infrastructure/lib/codePipelineConstruct.ts`
(`CodePipelineConstruct`), the CDK construct that builds the MLOps
CodePipeline: a four-stage pipeline (Source, CI, MLPipeline, Deploy)
together with the IAM roles, artifacts and run-orders wired in its
constructor.  Buckets and roles are modelled as records of the string
attributes the construct reads (`bucketArn`, `bucketName`, `roleArn`);
the stack's region and account (`cdk.Stack.of(this).region` / `.account`)
are threaded as an explicit `Env` parameter.  The TypeScript union tag
`repoType` is modelled as a `String`, since the constructor branches on
it at runtime (`props.repoType === 'git'`).
-/

namespace MLOps

/-- An S3 bucket handle: the two attributes the construct reads. -/
structure Bucket where
  bucketArn : String
  bucketName : String
deriving DecidableEq, Repr

/-- An IAM role handle: the attribute the construct reads. -/
structure RoleRef where
  roleArn : String
deriving DecidableEq, Repr

/-- The `git` sub-configuration of `CodePipelineConstructPropsGithubSource`. -/
structure GitSourceProps where
  githubConnectionArn : String
  githubRepoOwner : String
  githubRepoName : String
  githubRepoBranch : Option String
deriving DecidableEq, Repr

/-- `CodePipelineConstructProps`: the flattened input configuration.
`repoType` is a plain string, mirroring the runtime value of the union
tag; `git` holds the github sub-configuration (only read when
`repoType = "git"`, exactly as in the source). -/
structure CodePipelineConstructProps where
  dataManifestBucket : Bucket
  sageMakerArtifactBucket : Bucket
  sageMakerExecutionRole : RoleRef
  projectName : String
  repoType : String
  git : GitSourceProps
deriving DecidableEq, Repr

/-- Deployment context supplied by the CDK stack (`cdk.Stack.of(this)`). -/
structure Env where
  region : String
  account : String
deriving DecidableEq, Repr

/-- One entry of an IAM policy-statement `Condition` block, e.g.
`ForAnyValue:StringEquals / aws:CalledVia / [cloudformation.amazonaws.com]`. -/
structure Condition where
  operator : String
  key : String
  values : List String
deriving DecidableEq, Repr

/-- An IAM policy statement as assembled by `addToPolicy`. -/
structure PolicyStatement where
  effect : String
  actions : List String
  resources : List String
  conditions : List Condition
deriving DecidableEq, Repr

/-- An IAM role created by the construct, with its statement list in
`addToPolicy` order. -/
structure ExecutionIdentity where
  assumedBy : String
  statements : List PolicyStatement
deriving DecidableEq, Repr

/-- A CodeBuild environment variable (name, type, value). -/
structure EnvVar where
  varName : String
  varType : String
  value : String
deriving DecidableEq, Repr

/-- A `codebuild.PipelineProject`: buildspec path, privileged flag of the
build environment (CDK default: `false` when omitted), optional role. -/
structure PipelineProject where
  buildSpecPath : String
  privileged : Bool
  role : Option ExecutionIdentity
deriving DecidableEq, Repr

/-- The variant-specific payload of each pipeline action. -/
inductive ActionDetail where
  | codeStarSource (owner repo branch connectionArn : String)
  | codeCommitSource (repositoryName branch : String)
  | s3Source (bucketName bucketKey : String)
  | codeBuild (project : PipelineProject) (environmentVariables : List EnvVar)
  | manualApproval (topicName additionalInformation externalEntityLink : String)
deriving DecidableEq, Repr

/-- A pipeline action: name, run-order (CDK default `1` when omitted),
primary input artifact, extra input artifacts, output artifacts, and the
variant payload.  Artifacts are identified by their names
(`SourceCodeOutput`, `SourceDataOutput`, `BuildOutput`, `PipelineOutput`). -/
structure Action where
  actionName : String
  runOrder : Nat
  input : Option String
  extraInputs : List String
  outputs : List String
  detail : ActionDetail
deriving DecidableEq, Repr

/-- A pipeline stage: `addStage` argument. -/
structure Stage where
  stageName : String
  actions : List Action
deriving DecidableEq, Repr

/-- A CodeCommit repository declared by the construct. -/
structure Repository where
  repositoryName : String
deriving DecidableEq, Repr

/-- An SNS topic declared by the construct. -/
structure Topic where
  topicName : String
deriving DecidableEq, Repr

/-- The result of graph construction: the pipeline's stages in `addStage`
order, plus the repositories and topics declared as side effects in the
construct's scope. -/
structure PipelineGraph where
  restartExecutionOnUpdate : Bool
  stages : List Stage
  repositories : List Repository
  topics : List Topic
deriving DecidableEq, Repr

/-- JavaScript `a || b` on an optional string: `undefined` and the empty
string are falsy, so both yield the default (line 73:
`props.git.githubRepoBranch || 'main'`). -/
def jsOr (v : Option String) (d : String) : String :=
  match v with
  | none => d
  | some s => if s = "" then d else s

/-- Lines 64-86: the source-code action.  `if (props.repoType === 'git')`
yields a `CodeStarConnectionsSourceAction`; EVERY other tag value falls
into the `else` branch and yields the `CodeCommitSourceAction` on the
`MLOpsE2EDemo` repository, branch `main`. -/
def sourceCodeAction (props : CodePipelineConstructProps) : Action :=
  if props.repoType = "git" then
    { actionName := "SourceCode"
      runOrder := 1
      input := none
      extraInputs := []
      outputs := ["SourceCodeOutput"]
      detail := .codeStarSource props.git.githubRepoOwner props.git.githubRepoName
        (jsOr props.git.githubRepoBranch "main") props.git.githubConnectionArn }
  else
    { actionName := "SourceCode"
      runOrder := 1
      input := none
      extraInputs := []
      outputs := ["SourceCodeOutput"]
      detail := .codeCommitSource "MLOpsE2EDemo" "main" }

/-- Lines 76-79: the `SourceRepository` CodeCommit repository is declared
only in the `else` branch of the `repoType` test. -/
def declaredRepositories (props : CodePipelineConstructProps) : List Repository :=
  if props.repoType = "git" then [] else [{ repositoryName := "MLOpsE2EDemo" }]

/-- Lines 124-166: `mlPipelineRole` with its three statements, in
`addToPolicy` order: S3 access on the artifact bucket, the SageMaker
pipeline-lifecycle group scoped to
`arn:aws:sagemaker:REGION:ACCOUNT:pipeline/PROJECT(/ *)`, and
`iam:PassRole` on the execution role. -/
def mlPipelineRole (env : Env) (props : CodePipelineConstructProps) : ExecutionIdentity :=
  { assumedBy := "codebuild.amazonaws.com"
    statements :=
      [ { effect := "Allow"
          actions := ["s3:CreateBucket", "s3:GetObject", "s3:PutObject", "s3:ListBucket"]
          resources := [props.sageMakerArtifactBucket.bucketArn,
            props.sageMakerArtifactBucket.bucketArn ++ "/*"]
          conditions := [] },
        { effect := "Allow"
          actions := ["sagemaker:CreatePipeline", "sagemaker:ListTags", "sagemaker:AddTags",
            "sagemaker:UpdatePipeline", "sagemaker:DescribePipeline",
            "sagemaker:StartPipelineExecution", "sagemaker:DescribePipelineExecution",
            "sagemaker:ListPipelineExecutionSteps"]
          resources :=
            ["arn:aws:sagemaker:" ++ env.region ++ ":" ++ env.account ++ ":pipeline/" ++
              props.projectName,
             "arn:aws:sagemaker:" ++ env.region ++ ":" ++ env.account ++ ":pipeline/" ++
              props.projectName ++ "/*"]
          conditions := [] },
        { effect := "Allow"
          actions := ["iam:PassRole"]
          resources := [props.sageMakerExecutionRole.roleArn]
          conditions := [] } ] }

/-- The `aws:CalledVia cloudformation.amazonaws.com` condition used by the
deploy role's first three statements. -/
def calledViaCloudFormation : Condition :=
  { operator := "ForAnyValue:StringEquals"
    key := "aws:CalledVia"
    values := ["cloudformation.amazonaws.com"] }

/-- Lines 217-304: `deployRole` with its five statements in `addToPolicy`
order. -/
def deployRole (env : Env) (props : CodePipelineConstructProps) : ExecutionIdentity :=
  { assumedBy := "codebuild.amazonaws.com"
    statements :=
      [ { effect := "Allow"
          actions := ["lambda:*Function*"]
          resources := ["arn:aws:lambda:" ++ env.region ++ ":" ++ env.account ++
            ":function:Deployment-" ++ props.projectName ++ "*"]
          conditions := [calledViaCloudFormation] },
        { effect := "Allow"
          actions := ["sagemaker:*Endpoint*"]
          resources := ["*"]
          conditions := [calledViaCloudFormation] },
        { effect := "Allow"
          actions := ["iam:*Role", "iam:*Policy*", "iam:*RolePolicy"]
          resources := ["arn:aws:iam::" ++ env.account ++ ":role/Deployment-" ++
            props.projectName ++ "-*"]
          conditions := [calledViaCloudFormation] },
        { effect := "Allow"
          actions := ["cloudformation:DescribeStacks", "cloudformation:CreateChangeSet",
            "cloudformation:DescribeChangeSet", "cloudformation:ExecuteChangeSet",
            "cloudformation:DescribeStackEvents", "cloudformation:DeleteChangeSet",
            "cloudformation:GetTemplate"]
          resources :=
            ["arn:aws:cloudformation:" ++ env.region ++ ":" ++ env.account ++
              ":stack/CDKToolkit/*",
             "arn:aws:cloudformation:" ++ env.region ++ ":" ++ env.account ++
              ":stack/Deployment-" ++ props.projectName ++ "/*"]
          conditions := [] },
        { effect := "Allow"
          actions := ["s3:*Object", "s3:ListBucket", "s3:GetBucketLocation"]
          resources := ["arn:aws:s3:::cdktoolkit-stagingbucket-*"]
          conditions := [] } ] }

/-- The whole constructor body (lines 52-327) as a graph: the four
`addStage` calls in source order, each with its actions, projects, roles
and artifact wiring exactly as written. -/
def buildGraph (env : Env) (props : CodePipelineConstructProps) : PipelineGraph :=
  { restartExecutionOnUpdate := true
    stages :=
      [ { stageName := "Source"
          actions :=
            [ sourceCodeAction props,
              { actionName := "SourceData"
                runOrder := 1
                input := none
                extraInputs := []
                outputs := ["SourceDataOutput"]
                detail := .s3Source props.dataManifestBucket.bucketName "manifest.json.zip" } ] },
        { stageName := "CI"
          actions :=
            [ { actionName := "CIBuild"
                runOrder := 1
                input := some "SourceCodeOutput"
                extraInputs := ["SourceDataOutput"]
                outputs := ["BuildOutput"]
                detail := .codeBuild
                  { buildSpecPath := "./buildspecs/build.yml"
                    privileged := true
                    role := none } [] } ] },
        { stageName := "MLPipeline"
          actions :=
            [ { actionName := "MLPipeline"
                runOrder := 1
                input := some "BuildOutput"
                extraInputs := []
                outputs := ["PipelineOutput"]
                detail := .codeBuild
                  { buildSpecPath := "./buildspecs/pipeline.yml"
                    privileged := false
                    role := some (mlPipelineRole env props) }
                  [ { varName := "SAGEMAKER_ARTIFACT_BUCKET", varType := "PLAINTEXT",
                      value := props.sageMakerArtifactBucket.bucketName },
                    { varName := "SAGEMAKER_PIPELINE_ROLE_ARN", varType := "PLAINTEXT",
                      value := props.sageMakerExecutionRole.roleArn },
                    { varName := "SAGEMAKER_PROJECT_NAME", varType := "PLAINTEXT",
                      value := props.projectName } ] } ] },
        { stageName := "Deploy"
          actions :=
            [ { actionName := "Approval"
                runOrder := 1
                input := none
                extraInputs := []
                outputs := []
                detail := .manualApproval "ModelDeploymentApprovalTopic"
                  ("A new version of the model for project " ++ props.projectName ++
                    " is waiting for approval")
                  ("https://" ++ env.region ++ ".console.aws.amazon.com/sagemaker/home?region=" ++
                    env.region ++ "#/studio/") },
              { actionName := "Deploy"
                runOrder := 2
                input := some "BuildOutput"
                extraInputs := ["PipelineOutput"]
                outputs := []
                detail := .codeBuild
                  { buildSpecPath := "./buildspecs/deploy.yml"
                    privileged := true
                    role := some (deployRole env props) } [] } ] } ]
    repositories := declaredRepositories props
    topics := [{ topicName := "ModelDeploymentApprovalTopic" }] }

/-- Modelled from the spec: the error kinds the spec names
(`ConfigurationError`, `DuplicateArtifactError`).  The source defines no
error type and the constructor body contains no `throw`. -/
inductive BuildError where
  | configurationError (message : String)
  | duplicateArtifactError (message : String)
deriving DecidableEq, Repr

/-- Graph construction as a fallible operation.  The constructor body
contains no `throw` statement, so construction always completes with a
graph. -/
def build (env : Env) (props : CodePipelineConstructProps) :
    Except BuildError PipelineGraph :=
  .ok (buildGraph env props)

/-- JavaScript template-literal rendering of a possibly-`undefined`
string: `undefined` interpolates as the text `undefined`. -/
def jsRender (v : Option String) : String :=
  v.getD "undefined"

/-- Graph construction at the JavaScript runtime level for a configuration
whose `projectName` field may be absent (`undefined`): the TypeScript type
marks the field required, but the constructor performs no runtime check,
so an absent value simply flows into the template literals as the text
`undefined`. -/
def buildOptionalProject (env : Env) (props : CodePipelineConstructProps)
    (projectName : Option String) : Except BuildError PipelineGraph :=
  build env { props with projectName := jsRender projectName }

/-- The list of stage names in pipeline order. -/
def stageNames (g : PipelineGraph) : List String :=
  g.stages.map (·.stageName)

/-- Fallback stage for positional lookup. -/
def emptyStage : Stage :=
  { stageName := "", actions := [] }

/-- Fallback action for positional lookup. -/
def emptyAction : Action :=
  { actionName := "", runOrder := 0, input := none, extraInputs := [], outputs := [],
    detail := .s3Source "" "" }

/-- Fallback policy statement for positional lookup. -/
def emptyStatement : PolicyStatement :=
  { effect := "", actions := [], resources := [], conditions := [] }

/-- The action at stage index `i`, action index `j`. -/
def actionAt (g : PipelineGraph) (i j : Nat) : Action :=
  ((g.stages.getD i emptyStage).actions.getD j emptyAction)

/-- All artifacts an action consumes: primary input plus extra inputs. -/
def inputsOf (a : Action) : List String :=
  a.input.toList ++ a.extraInputs

/-- The execution role of a CodeBuild action's project, if any. -/
def roleOf (a : Action) : Option ExecutionIdentity :=
  match a.detail with
  | .codeBuild project _ => project.role
  | _ => none

/-- The privileged flag of a CodeBuild action's project environment
(`false` for non-build actions). -/
def privilegedOf (a : Action) : Bool :=
  match a.detail with
  | .codeBuild project _ => project.privileged
  | _ => false

/-- The branch referenced by a source action, if it is one. -/
def sourceBranch (a : Action) : Option String :=
  match a.detail with
  | .codeStarSource _ _ branch _ => some branch
  | .codeCommitSource _ branch => some branch
  | _ => none

/-- The statements of the MLPipeline stage action's execution identity. -/
def mlRoleStatements (g : PipelineGraph) : List PolicyStatement :=
  match roleOf (actionAt g 2 0) with
  | some ident => ident.statements
  | none => []

/-- Every artifact consumed by an action in stage `n` is produced by some
action in a stage of index strictly below `n`. -/
def wellWired (g : PipelineGraph) : Bool :=
  g.stages.enum.all fun p =>
    p.2.actions.all fun a =>
      (inputsOf a).all fun art =>
        (g.stages.take p.1).any fun earlier =>
          earlier.actions.any fun producer => producer.outputs.contains art

/-- Concrete deployment context for evaluation. -/
def env0 : Env :=
  { region := "us-east-1", account := "123456789012" }

/-- The end-to-end example configuration of the spec: project `demo`, git
source without an explicit branch. -/
def props0 : CodePipelineConstructProps :=
  { dataManifestBucket := { bucketArn := "arn:aws:s3:::manifests", bucketName := "manifests" }
    sageMakerArtifactBucket := { bucketArn := "arn:aws:s3:::artifacts", bucketName := "artifacts" }
    sageMakerExecutionRole := { roleArn := "arn:aws:iam::123456789012:role/exec-role" }
    projectName := "demo"
    repoType := "git"
    git :=
      { githubConnectionArn := "conn1"
        githubRepoOwner := "acme"
        githubRepoName := "ml-repo"
        githubRepoBranch := none } }

/-- The example configuration with the codecommit source variant. -/
def ccProps : CodePipelineConstructProps :=
  { props0 with repoType := "codecommit" }

/-- The example configuration with an unrecognized source-variant tag. -/
def bogusProps : CodePipelineConstructProps :=
  { props0 with repoType := "svn" }

/-- The pipeline-lifecycle statement of the ModelPipeline identity on the
example configuration. -/
def lifecycleStmt0 : PolicyStatement :=
  (mlRoleStatements (buildGraph env0 props0)).getD 1 emptyStatement

/-- The first resource of the pipeline-lifecycle statement on the example
configuration. -/
def lifecycleRes0 : String :=
  lifecycleStmt0.resources.getD 0 ""

theorem ne_of_length_ne {s t : String} (h : s.length ≠ t.length) : s ≠ t :=
  fun e => h (congrArg String.length e)

/-- C1 (counterexample): on a configuration whose `repoType` is `"svn"`
(neither `"git"` nor `"codecommit"`), construction succeeds rather than
failing with `ConfigurationError`. -/
theorem c1_counterexample :
    bogusProps.repoType ≠ "git" ∧ bogusProps.repoType ≠ "codecommit" ∧
      (build env0 bogusProps).isOk = true :=
  ⟨by decide, by decide, rfl⟩

/-- C1 (amended): for every configuration whose `repoType` is anything
other than `"git"`, construction succeeds and silently selects the
codecommit source variant (the `MLOpsE2EDemo` repository on branch
`main`); no `ConfigurationError` is raised. -/
theorem c1_amended (env : Env) (props : CodePipelineConstructProps)
    (h : props.repoType ≠ "git") :
    build env props = .ok (buildGraph env props) ∧
      (actionAt (buildGraph env props) 0 0).detail =
        .codeCommitSource "MLOpsE2EDemo" "main" ∧
      (buildGraph env props).repositories = [{ repositoryName := "MLOpsE2EDemo" }] := by
  refine ⟨rfl, ?_, ?_⟩
  · show (sourceCodeAction props).detail = _
    rw [sourceCodeAction, if_neg h]
  · show declaredRepositories props = _
    rw [declaredRepositories, if_neg h]

/-- C1 (witness for the amended theorem) at the `"svn"` configuration. -/
theorem c1_amended_witness :
    bogusProps.repoType ≠ "git" ∧
      (build env0 bogusProps = .ok (buildGraph env0 bogusProps) ∧
        (actionAt (buildGraph env0 bogusProps) 0 0).detail =
          .codeCommitSource "MLOpsE2EDemo" "main" ∧
        (buildGraph env0 bogusProps).repositories =
          [{ repositoryName := "MLOpsE2EDemo" }]) :=
  ⟨by decide, c1_amended env0 bogusProps (by decide)⟩

/-- C3 (counterexample): on the example configuration the stage names are
`Source, CI, MLPipeline, Deploy` — the third stage is NOT named
`ModelPipeline` as the claim states. -/
theorem c3_counterexample :
    stageNames (buildGraph env0 props0) ≠ ["Source", "CI", "ModelPipeline", "Deploy"] := by
  decide

/-- C3 (amended): every configuration yields exactly 4 stages, in the
fixed order `Source`, `CI`, `MLPipeline`, `Deploy`. -/
theorem c3_amended (env : Env) (props : CodePipelineConstructProps) :
    stageNames (buildGraph env props) = ["Source", "CI", "MLPipeline", "Deploy"] ∧
      (buildGraph env props).stages.length = 4 :=
  ⟨rfl, rfl⟩

/-- C4: in the Deploy stage, the manual-approval action's run-order is
strictly less than the deploy build action's run-order, for every
configuration. -/
theorem c4_approval_before_deploy (env : Env) (props : CodePipelineConstructProps) :
    (actionAt (buildGraph env props) 3 0).actionName = "Approval" ∧
      (actionAt (buildGraph env props) 3 1).actionName = "Deploy" ∧
      (actionAt (buildGraph env props) 3 0).runOrder <
        (actionAt (buildGraph env props) 3 1).runOrder :=
  ⟨rfl, rfl, Nat.one_lt_two⟩

/-- C9: graph construction is a deterministic, pure function of the
deployment context and the configuration — two builds from identical
inputs yield structurally equal graphs (the same stage names, action
names, artifact wiring and run-orders). -/
theorem c9_deterministic (env : Env) (props : CodePipelineConstructProps) :
    build env props = build env props ∧ buildGraph env props = buildGraph env props :=
  ⟨rfl, rfl⟩

/-- C2: every resource string of the pipeline-lifecycle statement of the
ModelPipeline execution identity is not the bare wildcard and contains the
literal `projectName` from the configuration. -/
theorem c2_lifecycle_scoped (env : Env) (props : CodePipelineConstructProps)
    (stmt : PolicyStatement) (hs : stmt ∈ mlRoleStatements (buildGraph env props))
    (hlc : "sagemaker:StartPipelineExecution" ∈ stmt.actions)
    (r : String) (hr : r ∈ stmt.resources) :
    r ≠ "*" ∧ props.projectName.data <:+: r.data := by
  have hs' : stmt ∈ (mlPipelineRole env props).statements := hs
  simp only [mlPipelineRole, List.mem_cons, List.not_mem_nil, or_false] at hs'
  have hA : ("arn:aws:sagemaker:" : String).length = 18 := rfl
  have hcolon : (":" : String).length = 1 := rfl
  have hP : (":pipeline/" : String).length = 10 := rfl
  have hstar : ("*" : String).length = 1 := rfl
  have hslash : ("/*" : String).length = 2 := rfl
  rcases hs' with h | h | h
  · rw [h] at hlc
    have hno : "sagemaker:StartPipelineExecution" ∉
        (["s3:CreateBucket", "s3:GetObject", "s3:PutObject", "s3:ListBucket"] :
          List String) := by decide
    exact absurd hlc hno
  · rw [h] at hr
    simp only [List.mem_cons, List.not_mem_nil, or_false] at hr
    rcases hr with h1 | h1
    · constructor
      · apply ne_of_length_ne
        rw [h1]
        simp only [String.length_append]
        omega
      · rw [h1]
        refine ⟨("arn:aws:sagemaker:" ++ env.region ++ ":" ++ env.account ++
          ":pipeline/").data, [], ?_⟩
        simp [List.append_assoc]
    · constructor
      · apply ne_of_length_ne
        rw [h1]
        simp only [String.length_append]
        omega
      · rw [h1]
        refine ⟨("arn:aws:sagemaker:" ++ env.region ++ ":" ++ env.account ++
          ":pipeline/").data, ("/*" : String).data, ?_⟩
        simp [List.append_assoc]
  · rw [h] at hlc
    have hno : "sagemaker:StartPipelineExecution" ∉ (["iam:PassRole"] : List String) := by
      decide
    exact absurd hlc hno

/-- C2 (witness): on the example configuration, the first lifecycle
resource is not the bare wildcard and contains `demo`. -/
theorem c2_lifecycle_scoped_witness :
    lifecycleStmt0 ∈ mlRoleStatements (buildGraph env0 props0) ∧
      "sagemaker:StartPipelineExecution" ∈ lifecycleStmt0.actions ∧
      lifecycleRes0 ∈ lifecycleStmt0.resources ∧
      (lifecycleRes0 ≠ "*" ∧ props0.projectName.data <:+: lifecycleRes0.data) :=
  ⟨by decide, by decide, by decide,
    c2_lifecycle_scoped env0 props0 lifecycleStmt0 (by decide) (by decide)
      lifecycleRes0 (by decide)⟩

/-- C5 (counterexample): a configuration whose required `projectName`
field is absent at runtime builds successfully — no `ConfigurationError`
is raised, the undefined value is simply rendered into the interpolated
strings. -/
theorem c5_counterexample :
    buildOptionalProject env0 props0 none =
      .ok (buildGraph env0 { props0 with projectName := "undefined" }) :=
  rfl

/-- C5 (amended): the constructor performs no runtime validation of
required fields; construction always succeeds, even when `projectName` is
absent, and never fails with `ConfigurationError`. -/
theorem c5_amended (env : Env) (props : CodePipelineConstructProps)
    (pn : Option String) :
    buildOptionalProject env props pn =
      .ok (buildGraph env { props with projectName := jsRender pn }) :=
  rfl

/-- C6: every artifact consumed by an action in stage `N` is produced by
an action in a stage of strictly smaller index, for every configuration. -/
theorem c6_no_forward_references (env : Env) (props : CodePipelineConstructProps) :
    wellWired (buildGraph env props) = true := by
  unfold wellWired buildGraph sourceCodeAction
  split <;> rfl

/-- C7: with `repoType = "git"` and the branch omitted, the source
action's branch is `main`. -/
theorem c7_default_branch_main (env : Env) (props : CodePipelineConstructProps)
    (h1 : props.repoType = "git") (h2 : props.git.githubRepoBranch = none) :
    sourceBranch (actionAt (buildGraph env props) 0 0) = some "main" := by
  show sourceBranch (sourceCodeAction props) = some "main"
  rw [sourceCodeAction, if_pos h1, h2]
  rfl

/-- C7 (witness) at the example configuration, whose branch is omitted. -/
theorem c7_default_branch_main_witness :
    props0.repoType = "git" ∧ props0.git.githubRepoBranch = none ∧
      sourceBranch (actionAt (buildGraph env0 props0) 0 0) = some "main" :=
  ⟨rfl, rfl, c7_default_branch_main env0 props0 rfl rfl⟩

/-- C8: with `repoType = "codecommit"`, exactly one repository is
declared (deterministically named `MLOpsE2EDemo`) and the source action
references that repository on branch `main`. -/
theorem c8_codecommit_source (env : Env) (props : CodePipelineConstructProps)
    (h : props.repoType = "codecommit") :
    (buildGraph env props).repositories = [{ repositoryName := "MLOpsE2EDemo" }] ∧
      (actionAt (buildGraph env props) 0 0).detail =
        .codeCommitSource "MLOpsE2EDemo" "main" := by
  have hne : props.repoType ≠ "git" := by rw [h]; decide
  constructor
  · show declaredRepositories props = _
    rw [declaredRepositories, if_neg hne]
  · show (sourceCodeAction props).detail = _
    rw [sourceCodeAction, if_neg hne]

/-- C8 (witness) at the codecommit example configuration. -/
theorem c8_codecommit_source_witness :
    ccProps.repoType = "codecommit" ∧
      ((buildGraph env0 ccProps).repositories = [{ repositoryName := "MLOpsE2EDemo" }] ∧
        (actionAt (buildGraph env0 ccProps) 0 0).detail =
          .codeCommitSource "MLOpsE2EDemo" "main") :=
  ⟨rfl, c8_codecommit_source env0 ccProps rfl⟩

/-- C10: the Deploy stage's build action runs in a privileged build
environment, exactly like the CI build action, for every configuration. -/
theorem c10_deploy_privileged (env : Env) (props : CodePipelineConstructProps) :
    privilegedOf (actionAt (buildGraph env props) 3 1) = true ∧
      privilegedOf (actionAt (buildGraph env props) 1 0) = true :=
  ⟨rfl, rfl⟩

end MLOps
